import Mathlib

/-!
Verification development for the DotGame particle simulation
(`src/main.rs`).  The source's `f32` arithmetic is idealized as exact
rational arithmetic (ℚ).  The only non-rational operation the source
performs is the square root inside `Vec2::length` / `normalize` /
`distance`; every definition that needs it takes an explicit square-root
oracle `sq : ℚ → ℚ`, and theorems that depend on its value hypothesize
its defining equations at exactly the points where the source evaluates
it.  Concrete scenarios and witnesses instantiate the oracle with a
finite table returning the exact real square root at every point the
scenario evaluates (all perfect squares).  The process-ambient random
number generator (`thread_rng`) is modelled as oracle functions supplying
the drawn values.
-/

namespace DotGame

/-- 2-D vector with rational components (embedding `macroquad`'s `Vec2`). -/
structure Vec2 where
  x : ℚ
  y : ℚ
deriving DecidableEq

def Vec2.zero : Vec2 := ⟨0, 0⟩

def Vec2.add (a b : Vec2) : Vec2 := ⟨a.x + b.x, a.y + b.y⟩

def Vec2.sub (a b : Vec2) : Vec2 := ⟨a.x - b.x, a.y - b.y⟩

def Vec2.scale (a : Vec2) (c : ℚ) : Vec2 := ⟨a.x * c, a.y * c⟩

def Vec2.dot (a b : Vec2) : ℚ := a.x * b.x + a.y * b.y

/-- Squared euclidean length; `Vec2::length` is `sq` of this value. -/
def Vec2.lengthSq (a : Vec2) : ℚ := a.x * a.x + a.y * a.y

/-- Embeds `Vec2::normalize`: the vector divided by its length, the length
being the square-root oracle applied to the squared length. -/
def Vec2.normalize (sq : ℚ → ℚ) (a : Vec2) : Vec2 :=
  a.scale (1 / sq a.lengthSq)

-- Constants of the source.
def SCREEN_WIDTH : ℚ := 1280
def SCREEN_HEIGHT : ℚ := 720
def MAX_DOTS : ℕ := 1000
def DOT_RADIUS : ℚ := 5
def INTERACTION_RADIUS : ℚ := 50

/-- The `DotType` enum. -/
inductive DotType where
  | Classic
  | Predator
  | Prey
  | Absorber
  | Transformer
  | Repulsor
  | Attractor
  | Chaser
  | Protector
  | Ghost
  | Bouncer
  | Social
  | Grower
  | Divider
deriving DecidableEq

/-- Source `DotType::all_types`. -/
def DotType.all_types : List DotType :=
  [DotType.Classic, DotType.Predator, DotType.Prey, DotType.Absorber,
   DotType.Transformer, DotType.Repulsor, DotType.Attractor, DotType.Chaser,
   DotType.Protector, DotType.Ghost, DotType.Bouncer, DotType.Social,
   DotType.Grower, DotType.Divider]

/-- The `DotConfig` struct. -/
structure DotConfig where
  max_speed : ℚ
  attraction_strength : ℚ
  repulsion_strength : ℚ
  friction : ℚ
  bounce_damping : ℚ
  interaction_radius : ℚ
  eating_radius : ℚ
  growth_rate : ℚ
  divide_size : ℚ
deriving DecidableEq

/-- Source `DotConfig::default`. -/
def DotConfig.default : DotConfig :=
  { max_speed := 5
    attraction_strength := 0.5
    repulsion_strength := 2
    friction := 0.98
    bounce_damping := 0.8
    interaction_radius := INTERACTION_RADIUS
    eating_radius := 15
    growth_rate := 0.01
    divide_size := 20 }

/-- The `Dot` struct. -/
structure Dot where
  position : Vec2
  velocity : Vec2
  acceleration : Vec2
  dot_type : DotType
  radius : ℚ
  mass : ℚ
  spin : ℚ
  alive : Bool
  age : ℚ
  energy : ℚ
deriving DecidableEq

/-- Source `Dot::new`. -/
def Dot.new (x y : ℚ) (t : DotType) : Dot :=
  { position := ⟨x, y⟩
    velocity := Vec2.zero
    acceleration := Vec2.zero
    dot_type := t
    radius := DOT_RADIUS
    mass := 1
    spin := 0
    alive := true
    age := 0
    energy := 100 }

/-- Out-of-range list access default (every access the model performs is
in range; the source indexes `Vec<Dot>` directly). -/
def dummyDot : Dot := Dot.new 0 0 DotType.Classic

/-- Source `Dot::random`: position and velocity come from `thread_rng`, here the
four supplied oracle values. -/
def Dot.random (r : ℚ × ℚ × ℚ × ℚ) (t : DotType) : Dot :=
  { Dot.new r.1 r.2.1 t with velocity := ⟨r.2.2.1, r.2.2.2⟩ }

/-- Source `Dot::apply_force`: `acceleration += force / mass`. -/
def Dot.apply_force (d : Dot) (force : Vec2) : Dot :=
  { d with acceleration := d.acceleration.add (force.scale (1 / d.mass)) }

/-- Source `Dot::distance_to`: the square root of the squared distance between
the two positions. -/
def Dot.distance_to (sq : ℚ → ℚ) (a b : Dot) : ℚ :=
  sq (Vec2.lengthSq (b.position.sub a.position))

/-- Source `Dot::can_eat`: a Predator eats Prey or Classic of equal-or-smaller
radius; an Absorber eats anything with `self.radius >= other.radius * 0.9`;
no other type eats. -/
def Dot.can_eat (a b : Dot) : Bool :=
  match a.dot_type with
  | DotType.Predator =>
      decide (b.dot_type = DotType.Prey ∨ b.dot_type = DotType.Classic) &&
      decide (b.radius ≤ a.radius)
  | DotType.Absorber => decide (b.radius * 0.9 ≤ a.radius)
  | _ => false

/-- Position, velocity and spin during the wall-bounce block of
`Dot::update`. -/
structure Kin where
  pos : Vec2
  vel : Vec2
  spin : ℚ
deriving DecidableEq

/-- First wall check of `Dot::update`: the left wall (`position.x <
radius`): clamp, negate-and-damp the x velocity, set spin from the
tangential (y) component. -/
def wallLeft (config : DotConfig) (radius : ℚ) (k : Kin) : Kin :=
  if k.pos.x < radius then
    { pos := ⟨radius, k.pos.y⟩,
      vel := ⟨k.vel.x * -config.bounce_damping, k.vel.y⟩,
      spin := k.vel.y * 0.1 }
  else k

/-- Second wall check: the right wall (`position.x > SCREEN_WIDTH -
radius`). -/
def wallRight (config : DotConfig) (radius : ℚ) (k : Kin) : Kin :=
  if k.pos.x > SCREEN_WIDTH - radius then
    { pos := ⟨SCREEN_WIDTH - radius, k.pos.y⟩,
      vel := ⟨k.vel.x * -config.bounce_damping, k.vel.y⟩,
      spin := -k.vel.y * 0.1 }
  else k

/-- Third wall check: the top wall (`position.y < radius`). -/
def wallTop (config : DotConfig) (radius : ℚ) (k : Kin) : Kin :=
  if k.pos.y < radius then
    { pos := ⟨k.pos.x, radius⟩,
      vel := ⟨k.vel.x, k.vel.y * -config.bounce_damping⟩,
      spin := -k.vel.x * 0.1 }
  else k

/-- Fourth wall check: the bottom wall (`position.y > SCREEN_HEIGHT -
radius`). -/
def wallBottom (config : DotConfig) (radius : ℚ) (k : Kin) : Kin :=
  if k.pos.y > SCREEN_HEIGHT - radius then
    { pos := ⟨k.pos.x, SCREEN_HEIGHT - radius⟩,
      vel := ⟨k.vel.x, k.vel.y * -config.bounce_damping⟩,
      spin := k.vel.x * 0.1 }
  else k

/-- The "Bounce off walls" block of `Dot::update`: the four wall checks in
the source's order. -/
def wallBounce (config : DotConfig) (radius : ℚ) (k : Kin) : Kin :=
  wallBottom config radius (wallTop config radius
    (wallRight config radius (wallLeft config radius k)))

/-- Source `Dot::update`: no-op when dead; otherwise integrate acceleration,
apply friction, clamp speed to `max_speed` (the comparison of the
nonnegative speed with `max_speed` is the oracle value of the squared
length), advance the position, bounce off walls, decay spin, reset the
acceleration, age, lose energy, grow when a Grower, die at zero energy. -/
def Dot.update (sq : ℚ → ℚ) (config : DotConfig) (dt : ℚ) (d : Dot) : Dot :=
  if d.alive then
    let v1 := d.velocity.add (d.acceleration.scale dt)
    let v2 := v1.scale config.friction
    let speed := sq v2.lengthSq
    let v3 := if speed > config.max_speed then
        (Vec2.normalize sq v2).scale config.max_speed
      else v2
    let p1 := d.position.add (v3.scale dt)
    let k := wallBounce config d.radius ⟨p1, v3, d.spin⟩
    let newRadius := if d.dot_type = DotType.Grower then
        d.radius + config.growth_rate * dt
      else d.radius
    let newMass := if d.dot_type = DotType.Grower then
        newRadius * newRadius
      else d.mass
    let newEnergy := d.energy - 0.1 * dt
    { d with
      position := k.pos
      velocity := k.vel
      spin := k.spin * 0.95
      acceleration := Vec2.zero
      age := d.age + dt
      energy := newEnergy
      radius := newRadius
      mass := newMass
      alive := if newEnergy ≤ 0 then false else true }
  else d

/-- The per-sweep accumulators of `GameState::apply_interactions`: the
population (mutated in place by eating), the force accumulator, the list
of indices to mark dead and the list of newly spawned dots. -/
structure SweepSt where
  dots : List Dot
  forces : List Vec2
  to_remove : List ℕ
  to_add : List Dot
deriving DecidableEq

/-- Force write `forces[k] += v`. -/
def addF (fs : List Vec2) (k : ℕ) (v : Vec2) : List Vec2 :=
  fs.set k ((fs.getD k Vec2.zero).add v)

/-- Force write `forces[k] -= v`. -/
def subF (fs : List Vec2) (k : ℕ) (v : Vec2) : List Vec2 :=
  fs.set k ((fs.getD k Vec2.zero).sub v)

/-- The eater's in-place mutation in the eating branch: an Absorber grows
its radius by 20% of the victim's and recomputes mass as radius squared;
then the eater gains half the victim's energy. -/
def eatAbsorb (eater victim : Dot) : Dot :=
  let e1 := if eater.dot_type = DotType.Absorber then
      let r := eater.radius + victim.radius * 0.2
      { eater with radius := r, mass := r * r }
    else eater
  { e1 with energy := e1.energy + victim.energy * 0.5 }

/-- The Divider offspring (`GameState::apply_type_forces`, Divider arm):
spawned near the Divider with random position jitter and random velocity,
the four `thread_rng` draws supplied by the oracle indexed by the pair. -/
def divOffspring (divRng : ℕ → ℕ → ℚ × ℚ × ℚ × ℚ) (d : Dot) (i j : ℕ) : Dot :=
  let r := divRng i j
  { Dot.new (d.position.x + r.1) (d.position.y + r.2.1) DotType.Divider with
    velocity := ⟨r.2.2.1, r.2.2.2⟩ }

/-- The Protector arm's population-wide scan: every Predator within
`interaction_radius` of the protected dot `dj` is pushed away at twice the
repulsion strength. -/
def protectorScan (sq : ℚ → ℚ) (config : DotConfig) (dots : List Dot)
    (dj : Dot) (fs : List Vec2) : List Vec2 :=
  (List.range dots.length).foldl
    (fun fs k =>
      if (dots.getD k dummyDot).dot_type = DotType.Predator then
        if Dot.distance_to sq dj (dots.getD k dummyDot) < config.interaction_radius then
          subF fs k ((Vec2.normalize sq
              ((dots.getD k dummyDot).position.sub dj.position)).scale
            (config.repulsion_strength * 2))
        else fs
      else fs)
    fs

/-- The force effect of the first `match` of `GameState::apply_type_forces`
(the acting role of `dot_i`); every arm except Divider touches only the
force accumulator, transcribed verbatim. -/
def roleForces (sq : ℚ → ℚ) (config : DotConfig) (dots : List Dot)
    (fs : List Vec2) (i j : ℕ) (distance : ℚ) (direction : Vec2) : List Vec2 :=
  let dot_i := dots.getD i dummyDot
  let dot_j := dots.getD j dummyDot
  match dot_i.dot_type with
  | DotType.Attractor =>
      addF fs j (direction.scale (config.attraction_strength / max distance 1))
  | DotType.Repulsor =>
      subF fs j (direction.scale (config.repulsion_strength / max distance 1))
  | DotType.Chaser =>
      if dot_j.dot_type ≠ dot_i.dot_type then
        addF fs i (direction.scale (config.attraction_strength * 2 / max distance 1))
      else fs
  | DotType.Prey =>
      if dot_j.dot_type = DotType.Predator then
        subF fs i (direction.scale (config.repulsion_strength * 3 / max distance 1))
      else fs
  | DotType.Social =>
      if dot_j.dot_type = dot_i.dot_type then
        addF fs i (direction.scale (config.attraction_strength * 1.5 / max distance 1))
      else fs
  | DotType.Protector =>
      if dot_j.dot_type = dot_i.dot_type ∧ distance < config.interaction_radius * 0.7 then
        protectorScan sq config dots dot_j fs
      else fs
  | DotType.Bouncer =>
      if distance < config.interaction_radius * 0.5 then
        let force := direction.scale (config.repulsion_strength * 5 / max distance 1)
        subF (addF fs j force) i (force.scale 0.5)
      else fs
  | _ => fs

/-- The spawn effect of the first `match` of `GameState::apply_type_forces`:
only the Divider arm pushes onto `new_dots`, and it does so whenever its
radius exceeds `divide_size` on a 120th frame, independent of the pair's
distance or direction. -/
def roleAdds (divRng : ℕ → ℕ → ℚ × ℚ × ℚ × ℚ) (config : DotConfig)
    (frame_count : ℕ) (dots : List Dot) (i j : ℕ) : List Dot :=
  let dot_i := dots.getD i dummyDot
  match dot_i.dot_type with
  | DotType.Divider =>
      if dot_i.radius > config.divide_size ∧ frame_count % 120 = 0 then
        [divOffspring divRng dot_i i j]
      else []
  | _ => []

/-- The source's second `match` ("Symmetric forces"): the acting role of
`dot_j`, Attractor and Repulsor only. -/
def symForces (config : DotConfig) (dots : List Dot) (fs : List Vec2)
    (i j : ℕ) (distance : ℚ) (direction : Vec2) : List Vec2 :=
  match (dots.getD j dummyDot).dot_type with
  | DotType.Attractor =>
      subF fs i (direction.scale (config.attraction_strength / max distance 1))
  | DotType.Repulsor =>
      addF fs i (direction.scale (config.repulsion_strength / max distance 1))
  | _ => fs

/-- Source `GameState::apply_type_forces`: the acting-role force arm, the Divider
spawn arm, then the symmetric Attractor/Repulsor arm. -/
def applyTypeForces (sq : ℚ → ℚ) (divRng : ℕ → ℕ → ℚ × ℚ × ℚ × ℚ)
    (config : DotConfig) (frame_count : ℕ) (st : SweepSt) (i j : ℕ)
    (distance : ℚ) (direction : Vec2) : SweepSt :=
  { st with
    forces := symForces config st.dots
      (roleForces sq config st.dots st.forces i j distance direction) i j distance direction
    to_add := st.to_add ++ roleAdds divRng config frame_count st.dots i j }

/-- The body of the inner `j` loop of `GameState::apply_interactions`:
skip dead `j`, skip pairs beyond `interaction_radius`, resolve eating
(first `i` eats `j`, else `j` eats `i`; a resolved pair `continue`s past
the type forces), else physical collision unless either is a Ghost, then
the type-specific forces. -/
def innerStep (sq : ℚ → ℚ) (divRng : ℕ → ℕ → ℚ × ℚ × ℚ × ℚ)
    (config : DotConfig) (frame_count : ℕ) (st : SweepSt) (i j : ℕ) : SweepSt :=
  let dot_j := st.dots.getD j dummyDot
  if dot_j.alive = false then st else
  let dot_i := st.dots.getD i dummyDot
  let distance := Dot.distance_to sq dot_i dot_j
  if distance > config.interaction_radius then st else
  let direction := Vec2.normalize sq (dot_j.position.sub dot_i.position)
  let min_distance := dot_i.radius + dot_j.radius
  if distance < min_distance ∧ distance > 0.1 then
    if dot_i.can_eat dot_j = true ∧ distance < config.eating_radius then
      { st with dots := st.dots.set i (eatAbsorb dot_i dot_j),
                to_remove := st.to_remove ++ [j] }
    else if dot_j.can_eat dot_i = true ∧ distance < config.eating_radius then
      { st with dots := st.dots.set j (eatAbsorb dot_j dot_i),
                to_remove := st.to_remove ++ [i] }
    else
      let st1 :=
        if dot_i.dot_type ≠ DotType.Ghost ∧ dot_j.dot_type ≠ DotType.Ghost then
          let overlap := min_distance - distance
          let separation := direction.scale (overlap * 0.5)
          let fsA := addF (subF st.forces i separation) j separation
          let relative_velocity := dot_i.velocity.sub dot_j.velocity
          let impulse := direction.scale
            (relative_velocity.dot direction * config.bounce_damping)
          let fsB := addF (subF fsA i (impulse.scale dot_j.mass)) j
            (impulse.scale dot_i.mass)
          { st with forces := fsB }
        else st
      applyTypeForces sq divRng config frame_count st1 i j distance direction
  else
    applyTypeForces sq divRng config frame_count st i j distance direction

/-- The inner loop `for j in (i+1)..len`. -/
def sweepRow (sq : ℚ → ℚ) (divRng : ℕ → ℕ → ℚ × ℚ × ℚ × ℚ)
    (config : DotConfig) (frame_count : ℕ) (st : SweepSt) (i : ℕ) : SweepSt :=
  (List.range' (i + 1) (st.dots.length - (i + 1))).foldl
    (fun s j => innerStep sq divRng config frame_count s i j) st

/-- The outer loop `for i in 0..len`, skipping rows whose `i` is dead. -/
def interactionSweep (sq : ℚ → ℚ) (divRng : ℕ → ℕ → ℚ × ℚ × ℚ × ℚ)
    (config : DotConfig) (frame_count : ℕ) (dots : List Dot) : SweepSt :=
  (List.range dots.length).foldl
    (fun s i =>
      if (s.dots.getD i dummyDot).alive = false then s
      else sweepRow sq divRng config frame_count s i)
    { dots := dots
      forces := List.replicate dots.length Vec2.zero
      to_remove := []
      to_add := [] }

/-- Source `to_remove.sort_unstable(); to_remove.dedup()`: sorted, consecutive
duplicates removed. -/
def removalList (l : List ℕ) : List ℕ :=
  (l.insertionSort (· ≤ ·)).destutter Ne

/-- Applying the accumulated forces: each live dot receives its entry of
the force array. -/
def applyForces (dots : List Dot) (forces : List Vec2) : List Dot :=
  List.zipWith (fun d f => if d.alive then d.apply_force f else d) dots forces

/-- Marking the removal-list indices dead, in the source's reverse order
(`for &i in to_remove.iter().rev()`). -/
def markDead (dots : List Dot) (idxs : List ℕ) : List Dot :=
  idxs.reverse.foldl
    (fun ds k => ds.set k { ds.getD k dummyDot with alive := false }) dots

/-- Pushing the spawned dots, each insertion capacity-checked
(`if self.dots.len() < MAX_DOTS`). -/
def addCapped (dots : List Dot) (toAdd : List Dot) : List Dot :=
  toAdd.foldl (fun ds d => if ds.length < MAX_DOTS then ds ++ [d] else ds) dots

/-- The `GameState` struct (render-only fields dropped). -/
structure GameState where
  dots : List Dot
  config : DotConfig
  selected_type : DotType
  paused : Bool
  show_aura : Bool
  game_of_life_mode : Bool
  frame_count : ℕ
deriving DecidableEq

/-- Source `GameState::new`. -/
def GameState.new : GameState :=
  { dots := []
    config := DotConfig.default
    selected_type := DotType.Classic
    paused := false
    show_aura := true
    game_of_life_mode := false
    frame_count := 0 }

/-- Source `GameState::apply_interactions`: run the pairwise sweep, apply the
accumulated forces to live dots, mark the sorted-deduplicated removal
indices dead, push the spawned dots under the capacity check, and every
60th frame compact the dead entries. -/
def GameState.apply_interactions (sq : ℚ → ℚ)
    (divRng : ℕ → ℕ → ℚ × ℚ × ℚ × ℚ) (gs : GameState) : GameState :=
  let st := interactionSweep sq divRng gs.config gs.frame_count gs.dots
  let dots1 := applyForces st.dots st.forces
  let dots2 := markDead dots1 (removalList st.to_remove)
  let dots3 := addCapped dots2 st.to_add
  let dots4 := if gs.frame_count % 60 = 0 then dots3.filter (fun d => d.alive) else dots3
  { gs with dots := dots4 }

/-- Source `GameState::add_dot`: push a new dot of the selected type, only while
below `MAX_DOTS`. -/
def GameState.add_dot (gs : GameState) (x y : ℚ) : GameState :=
  if gs.dots.length < MAX_DOTS then
    { gs with dots := gs.dots ++ [Dot.new x y gs.selected_type] }
  else gs

/-- Source `GameState::seed_random`: clear the population and push `count` random
dots (no capacity check in the source).  The `thread_rng` draws are the
oracle values: `rngPos k` the position/velocity of the `k`-th dot and
`rngTy k` its type index into the candidate list. -/
def GameState.seed_random (rngPos : ℕ → ℚ × ℚ × ℚ × ℚ) (rngTy : ℕ → ℕ)
    (gs : GameState) (count : ℕ) : GameState :=
  let types := if gs.game_of_life_mode then [DotType.Classic] else DotType.all_types
  { gs with dots := ((List.range count).map
      (fun k => Dot.random (rngPos k) (types.getD (rngTy k % types.length) DotType.Classic))) }

/-- Live same-type (Classic) neighbor count within `interaction_radius`,
excluding the dot itself (`apply_game_of_life_rules`, first inner loop). -/
def golNeighbors (sq : ℚ → ℚ) (config : DotConfig) (dots : List Dot) (i : ℕ) : ℕ :=
  (List.range dots.length).countP
    (fun j => decide (i ≠ j ∧ (dots.getD j dummyDot).alive = true ∧
      (dots.getD j dummyDot).dot_type = DotType.Classic ∧
      Dot.distance_to sq (dots.getD i dummyDot) (dots.getD j dummyDot) <
        config.interaction_radius))

/-- Whether index `i` is a live Classic dot (the overlay's qualifying
check). -/
def golQualifies (dots : List Dot) (i : ℕ) : Prop :=
  (dots.getD i dummyDot).alive = true ∧ (dots.getD i dummyDot).dot_type = DotType.Classic

instance (dots : List Dot) (i : ℕ) : Decidable (golQualifies dots i) := by
  unfold golQualifies
  infer_instance

/-- The removal list of `apply_game_of_life_rules`: qualifying dots with
fewer than 2 or more than 3 neighbors.  The source accumulates it in one
read-only loop whose iterations are independent, so it is the filter of
the index range. -/
def golToRemove (sq : ℚ → ℚ) (config : DotConfig) (dots : List Dot) : List ℕ :=
  (List.range dots.length).filter
    (fun i => decide (golQualifies dots i ∧
      (golNeighbors sq config dots i < 2 ∨ 3 < golNeighbors sq config dots i)))

/-- The overlay offspring for index `i`: a new Classic at the dot's
position plus the two random offsets the oracle supplies for `i`. -/
def golOffspring (golRng : ℕ → ℚ × ℚ) (dots : List Dot) (i : ℕ) : Dot :=
  Dot.new ((dots.getD i dummyDot).position.x + (golRng i).1)
    ((dots.getD i dummyDot).position.y + (golRng i).2) DotType.Classic

/-- The spawn list of `apply_game_of_life_rules`: one offspring per
qualifying dot with exactly 3 neighbors, accumulated by the same
read-only loop. -/
def golToAdd (sq : ℚ → ℚ) (golRng : ℕ → ℚ × ℚ) (config : DotConfig)
    (dots : List Dot) : List Dot :=
  ((List.range dots.length).filter
    (fun i => decide (golQualifies dots i ∧ golNeighbors sq config dots i = 3))).map
    (golOffspring golRng dots)

/-- Source `GameState::apply_game_of_life_rules`: mark the removal list dead (in
reverse), then push the offspring under the capacity check. -/
def GameState.apply_game_of_life_rules (sq : ℚ → ℚ) (golRng : ℕ → ℚ × ℚ)
    (gs : GameState) : GameState :=
  { gs with dots := (addCapped
      (markDead gs.dots (golToRemove sq gs.config gs.dots))
      (golToAdd sq golRng gs.config gs.dots)) }

/-- The "Update each dot" loop of `GameState::update`: every dot
integrates (`Dot::update`). -/
def GameState.integrateAll (sq : ℚ → ℚ) (dt : ℚ) (gs : GameState) : GameState :=
  { gs with dots := gs.dots.map (Dot.update sq gs.config dt) }

/-- The game-of-life gate at the end of `GameState::update`: the overlay
runs only in game-of-life mode and only on every 30th frame. -/
def golGate (sq : ℚ → ℚ) (golRng : ℕ → ℚ × ℚ) (gs : GameState) : GameState :=
  if gs.game_of_life_mode = true ∧ gs.frame_count % 30 = 0 then
    gs.apply_game_of_life_rules sq golRng
  else gs

/-- Source `GameState::update`: when not paused, increment the frame counter, run
the interactions, integrate every dot, and on every 30th frame in
game-of-life mode run the overlay. -/
def GameState.update (sq : ℚ → ℚ) (divRng : ℕ → ℕ → ℚ × ℚ × ℚ × ℚ)
    (golRng : ℕ → ℚ × ℚ) (gs : GameState) (dt : ℚ) : GameState :=
  if gs.paused then gs else
  golGate sq golRng (GameState.integrateAll sq dt
    (GameState.apply_interactions sq divRng { gs with frame_count := gs.frame_count + 1 }))

/-- Source `GameState::load_config`: read the file, parse it, and only on full
success replace the stored configuration; any failure returns the error
with the state untouched.  File system and JSON parser are external
collaborators, modelled as oracles; the Bool is `Ok`/`Err`. -/
def GameState.load_config (fsRead : String → Option String)
    (parse : String → Option DotConfig) (gs : GameState) (filename : String) :
    GameState × Bool :=
  match fsRead filename with
  | none => (gs, false)
  | some json =>
    match parse json with
    | none => (gs, false)
    | some c => ({ gs with config := c }, true)

/-! ### Oracles and fixtures for concrete scenarios.  The square-root
oracles return the exact real square root at every point where the
scenario at hand evaluates one (all perfect squares); the rng oracles
return zeros. -/

def rngZ4 : ℕ → ℕ → ℚ × ℚ × ℚ × ℚ := fun _ _ => (0, 0, 0, 0)

def rngZ2 : ℕ → ℚ × ℚ := fun _ => (0, 0)

def rngZP : ℕ → ℚ × ℚ × ℚ × ℚ := fun _ => (0, 0, 0, 0)

def rngZT : ℕ → ℕ := fun _ => 0

/-! ### Fixtures for the concrete scenarios and witnesses -/

/-- An Absorber of radius 10 (for the C4 counterexample). -/
def absorber10 : Dot := { Dot.new 0 0 DotType.Absorber with radius := 10 }

/-- A Classic dot of radius 1 (for the C4 counterexample). -/
def classic1 : Dot := { Dot.new 0 0 DotType.Classic with radius := 1 }

/-- Square-root oracle for the C5 witness scenario (exact at the three
squared distances 100, 400, 900 the scenario produces). -/
def sqC5 : ℚ → ℚ := fun q =>
  if q = 100 then 10 else if q = 400 then 20 else if q = 900 then 30 else 0

/-- Four Classic dots in a row, 10 apart: dot 0 has exactly 3 neighbors
within the interaction radius 50. -/
def gsC5 : GameState :=
  { GameState.new with
    dots := [Dot.new 100 100 DotType.Classic, Dot.new 110 100 DotType.Classic,
             Dot.new 120 100 DotType.Classic, Dot.new 130 100 DotType.Classic] }

/-- Square-root oracle for the C3 witness pair (squared distance 16). -/
def sqC3 : ℚ → ℚ := fun q => if q = 16 then 4 else 0

/-- A Predator and a Classic dot 4 apart: overlapping, above the floor,
within the eating radius. -/
def stC3 : SweepSt :=
  { dots := [Dot.new 100 100 DotType.Predator, Dot.new 104 100 DotType.Classic]
    forces := [Vec2.zero, Vec2.zero]
    to_remove := []
    to_add := [] }

/-- Square-root oracle for the C1 scenario (exact at the two points the
tick evaluates: squared distance 100, squared post-friction speed
2401/1000000). -/
def sqC1 : ℚ → ℚ := fun q =>
  if q = 100 then 10 else if q = 2401/1000000 then 49/1000 else 0

/-- The spec's scenario: one Attractor at (100,100), one Classic at
(110,100), default configuration (`interaction_radius` 50), not paused. -/
def gsC1 : GameState :=
  { GameState.new with
    dots := [Dot.new 100 100 DotType.Attractor, Dot.new 110 100 DotType.Classic] }

/-- Square-root oracle for the C10 scenario (squared distances 64 and 16).
-/
def sqC10 : ℚ → ℚ := fun q => if q = 64 then 8 else if q = 16 then 4 else 0

/-- Two Predators at (96,100) and (104,100) flanking one Classic victim at
(100,100), all radius 5, energy 100. -/
def dotsC10 : List Dot :=
  [⟨⟨96, 100⟩, Vec2.zero, Vec2.zero, DotType.Predator, 5, 1, 0, true, 0, 100⟩,
   ⟨⟨104, 100⟩, Vec2.zero, Vec2.zero, DotType.Predator, 5, 1, 0, true, 0, 100⟩,
   ⟨⟨100, 100⟩, Vec2.zero, Vec2.zero, DotType.Classic, 5, 1, 0, true, 0, 100⟩]

/-- The C10 scenario: both predator-victim pairs overlap within the eating
radius. -/
def gsC10 : GameState := { GameState.new with dots := dotsC10, frame_count := 1 }

/-- The C10 sweep's initial accumulator. -/
def st0C10 : SweepSt := ⟨dotsC10, [Vec2.zero, Vec2.zero, Vec2.zero], [], []⟩

/-- After pair (0,1): the predators physically collide, separation forces
accumulate, nobody eats. -/
def stAC10 : SweepSt := ⟨dotsC10, [⟨-1, 0⟩, ⟨1, 0⟩, ⟨0, 0⟩], [], []⟩

/-- After pair (0,2): predator 0 ate the victim — energy 150, the victim
pushed onto the removal list, the victim itself untouched. -/
def stBC10 : SweepSt :=
  ⟨[⟨⟨96, 100⟩, Vec2.zero, Vec2.zero, DotType.Predator, 5, 1, 0, true, 0, 150⟩,
    ⟨⟨104, 100⟩, Vec2.zero, Vec2.zero, DotType.Predator, 5, 1, 0, true, 0, 100⟩,
    ⟨⟨100, 100⟩, Vec2.zero, Vec2.zero, DotType.Classic, 5, 1, 0, true, 0, 100⟩],
   [⟨-1, 0⟩, ⟨1, 0⟩, ⟨0, 0⟩], [2], []⟩

/-- After pair (1,2): predator 1 ate the still-alive victim as well. -/
def stC10val : SweepSt :=
  ⟨[⟨⟨96, 100⟩, Vec2.zero, Vec2.zero, DotType.Predator, 5, 1, 0, true, 0, 150⟩,
    ⟨⟨104, 100⟩, Vec2.zero, Vec2.zero, DotType.Predator, 5, 1, 0, true, 0, 150⟩,
    ⟨⟨100, 100⟩, Vec2.zero, Vec2.zero, DotType.Classic, 5, 1, 0, true, 0, 100⟩],
   [⟨-1, 0⟩, ⟨1, 0⟩, ⟨0, 0⟩], [2, 2], []⟩

/-- Square-root oracle for the C9 scenario (squared distances 1600, 6400).
-/
def sqC9 : ℚ → ℚ := fun q => if q = 1600 then 40 else if q = 6400 then 80 else 0

/-- One Divider of radius 25 (above `divide_size` 20) at (100,100) with
two Classic neighbors 40 away on either side. -/
def dotsC9 : List Dot :=
  [⟨⟨100, 100⟩, Vec2.zero, Vec2.zero, DotType.Divider, 25, 1, 0, true, 0, 100⟩,
   ⟨⟨140, 100⟩, Vec2.zero, Vec2.zero, DotType.Classic, 5, 1, 0, true, 0, 100⟩,
   ⟨⟨60, 100⟩, Vec2.zero, Vec2.zero, DotType.Classic, 5, 1, 0, true, 0, 100⟩]

/-- The C9 scenario on frame 120 (a division frame). -/
def gsC9 : GameState := { GameState.new with dots := dotsC9, frame_count := 120 }

/-- The C9 sweep's initial accumulator. -/
def st0C9 : SweepSt := ⟨dotsC9, [Vec2.zero, Vec2.zero, Vec2.zero], [], []⟩

/-- After pair (0,1): one offspring spawned (jitter and velocity are the
zero oracle draws). -/
def stAC9 : SweepSt :=
  ⟨dotsC9, [Vec2.zero, Vec2.zero, Vec2.zero], [],
   [⟨⟨100, 100⟩, Vec2.zero, Vec2.zero, DotType.Divider, 5, 1, 0, true, 0, 100⟩]⟩

/-- After pair (0,2): a second offspring from the same Divider in the same
sweep.  Pair (1,2) is beyond the interaction radius and changes nothing,
so this is also the sweep's final state. -/
def stC9val : SweepSt :=
  ⟨dotsC9, [Vec2.zero, Vec2.zero, Vec2.zero], [],
   [⟨⟨100, 100⟩, Vec2.zero, Vec2.zero, DotType.Divider, 5, 1, 0, true, 0, 100⟩,
    ⟨⟨100, 100⟩, Vec2.zero, Vec2.zero, DotType.Divider, 5, 1, 0, true, 0, 100⟩]⟩

/-- Square-root oracle for the C6 witness (exact at the squared
post-friction speed 2401). -/
def sqC6 : ℚ → ℚ := fun q => if q = 2401 then 49 else 0

/-- A live Classic dot with velocity (30, 40): post-friction speed 49,
well above the default `max_speed` 5, so the clamp fires. -/
def dC6 : Dot := { Dot.new 600 300 DotType.Classic with velocity := ⟨30, 40⟩ }

/-- A single live Classic dot, alone: the sweep has no pairs, so its
entry is untouched and nothing is marked. -/
def gsC8 : GameState :=
  { GameState.new with dots := [Dot.new 600 300 DotType.Classic] }

/-- Square-root oracle for the C8 witness: the lone dot's velocity is
zero, so only the point 0 is evaluated. -/
def sqC8 : ℚ → ℚ := fun _ => 0

/-! ### Helper lemmas -/

theorem list_foldl_pres {α β : Type} (P : α → Prop) (f : α → β → α)
    (hf : ∀ a b, P a → P (f a b)) :
    ∀ (l : List β) (a : α), P a → P (l.foldl f a) := by
  intro l
  induction l with
  | nil => intro a h; exact h
  | cons x xs ih => intro a h; exact ih _ (hf a x h)

theorem addF_length (fs : List Vec2) (k : ℕ) (v : Vec2) :
    (addF fs k v).length = fs.length := by
  simp [addF]

theorem subF_length (fs : List Vec2) (k : ℕ) (v : Vec2) :
    (subF fs k v).length = fs.length := by
  simp [subF]

theorem protectorScan_length (sq : ℚ → ℚ) (config : DotConfig) (dots : List Dot)
    (dj : Dot) (fs : List Vec2) :
    (protectorScan sq config dots dj fs).length = fs.length := by
  unfold protectorScan
  refine list_foldl_pres (fun g : List Vec2 => g.length = fs.length) _ ?_ _ _ rfl
  intro g k hg
  dsimp only
  split <;> [skip; exact hg]
  split <;> [simpa [subF_length] using hg; exact hg]

theorem roleForces_length (sq : ℚ → ℚ) (config : DotConfig) (dots : List Dot)
    (fs : List Vec2) (i j : ℕ) (distance : ℚ) (direction : Vec2) :
    (roleForces sq config dots fs i j distance direction).length = fs.length := by
  unfold roleForces
  dsimp only
  cases h : (dots.getD i dummyDot).dot_type <;>
    simp [h, addF_length, subF_length, protectorScan_length, apply_ite List.length]

theorem symForces_length (config : DotConfig) (dots : List Dot) (fs : List Vec2)
    (i j : ℕ) (distance : ℚ) (direction : Vec2) :
    (symForces config dots fs i j distance direction).length = fs.length := by
  unfold symForces
  cases h : (dots.getD j dummyDot).dot_type <;>
    simp [addF_length, subF_length]

theorem applyTypeForces_dots (sq : ℚ → ℚ) (divRng : ℕ → ℕ → ℚ × ℚ × ℚ × ℚ)
    (config : DotConfig) (fc : ℕ) (st : SweepSt) (i j : ℕ) (d : ℚ) (dir : Vec2) :
    (applyTypeForces sq divRng config fc st i j d dir).dots = st.dots := rfl

theorem applyTypeForces_to_remove (sq : ℚ → ℚ) (divRng : ℕ → ℕ → ℚ × ℚ × ℚ × ℚ)
    (config : DotConfig) (fc : ℕ) (st : SweepSt) (i j : ℕ) (d : ℚ) (dir : Vec2) :
    (applyTypeForces sq divRng config fc st i j d dir).to_remove = st.to_remove := rfl

theorem applyTypeForces_forces_length (sq : ℚ → ℚ) (divRng : ℕ → ℕ → ℚ × ℚ × ℚ × ℚ)
    (config : DotConfig) (fc : ℕ) (st : SweepSt) (i j : ℕ) (d : ℚ) (dir : Vec2) :
    (applyTypeForces sq divRng config fc st i j d dir).forces.length = st.forces.length := by
  unfold applyTypeForces
  simp [symForces_length, roleForces_length]

theorem innerStep_dots_length (sq : ℚ → ℚ) (divRng : ℕ → ℕ → ℚ × ℚ × ℚ × ℚ)
    (config : DotConfig) (fc : ℕ) (st : SweepSt) (i j : ℕ) :
    (innerStep sq divRng config fc st i j).dots.length = st.dots.length := by
  unfold innerStep
  dsimp only
  split <;> [rfl; skip]
  split <;> [rfl; skip]
  split
  · split
    · simp
    · split
      · simp
      · rw [applyTypeForces_dots]
        split <;> rfl
  · rw [applyTypeForces_dots]

theorem innerStep_forces_length (sq : ℚ → ℚ) (divRng : ℕ → ℕ → ℚ × ℚ × ℚ × ℚ)
    (config : DotConfig) (fc : ℕ) (st : SweepSt) (i j : ℕ) :
    (innerStep sq divRng config fc st i j).forces.length = st.forces.length := by
  unfold innerStep
  dsimp only
  split <;> [rfl; skip]
  split <;> [rfl; skip]
  split
  · split
    · simp
    · split
      · simp
      · rw [applyTypeForces_forces_length]
        split <;> simp [addF_length, subF_length]
  · rw [applyTypeForces_forces_length]

theorem interactionSweep_lengths (sq : ℚ → ℚ) (divRng : ℕ → ℕ → ℚ × ℚ × ℚ × ℚ)
    (config : DotConfig) (fc : ℕ) (dots : List Dot) :
    (interactionSweep sq divRng config fc dots).dots.length = dots.length ∧
    (interactionSweep sq divRng config fc dots).forces.length = dots.length := by
  unfold interactionSweep
  refine list_foldl_pres
    (fun st : SweepSt => st.dots.length = dots.length ∧ st.forces.length = dots.length) _ ?_ _ _
    (by simp)
  intro st k hst
  dsimp only
  split
  · exact hst
  · unfold sweepRow
    refine list_foldl_pres
      (fun s : SweepSt => s.dots.length = dots.length ∧ s.forces.length = dots.length) _ ?_ _ _ hst
    intro s j hs
    exact ⟨by rw [innerStep_dots_length]; exact hs.1,
           by rw [innerStep_forces_length]; exact hs.2⟩

theorem applyForces_length (dots : List Dot) (forces : List Vec2)
    (h : forces.length = dots.length) :
    (applyForces dots forces).length = dots.length := by
  simp [applyForces, h]

theorem markDead_length (dots : List Dot) (idxs : List ℕ) :
    (markDead dots idxs).length = dots.length := by
  unfold markDead
  refine list_foldl_pres (fun ds : List Dot => ds.length = dots.length) _ ?_ _ _ rfl
  intro ds k h
  simpa using h

theorem addCapped_le (dots : List Dot) (l : List Dot)
    (h : dots.length ≤ MAX_DOTS) :
    (addCapped dots l).length ≤ MAX_DOTS := by
  unfold addCapped
  refine list_foldl_pres (fun ds : List Dot => ds.length ≤ MAX_DOTS) _ ?_ _ _ h
  intro ds d hds
  dsimp only
  split
  · next hlt => simpa using hlt
  · exact hds

theorem apply_interactions_length_le (sq : ℚ → ℚ)
    (divRng : ℕ → ℕ → ℚ × ℚ × ℚ × ℚ) (gs : GameState)
    (h : gs.dots.length ≤ MAX_DOTS) :
    (gs.apply_interactions sq divRng).dots.length ≤ MAX_DOTS := by
  unfold GameState.apply_interactions
  obtain ⟨h1, h2⟩ := interactionSweep_lengths sq divRng gs.config gs.frame_count gs.dots
  dsimp only
  have hAF : (applyForces (interactionSweep sq divRng gs.config gs.frame_count gs.dots).dots
      (interactionSweep sq divRng gs.config gs.frame_count gs.dots).forces).length =
      gs.dots.length := by
    rw [applyForces_length _ _ (by rw [h1, h2])]
    exact h1
  have hMD := markDead_length (applyForces
    (interactionSweep sq divRng gs.config gs.frame_count gs.dots).dots
    (interactionSweep sq divRng gs.config gs.frame_count gs.dots).forces)
    (removalList (interactionSweep sq divRng gs.config gs.frame_count gs.dots).to_remove)
  have hAC := addCapped_le _ (interactionSweep sq divRng gs.config gs.frame_count gs.dots).to_add
    (by rw [hMD, hAF]; exact h)
  split
  · exact le_trans (List.length_filter_le _ _) hAC
  · exact hAC

theorem gol_length_le (sq : ℚ → ℚ) (golRng : ℕ → ℚ × ℚ) (gs : GameState)
    (h : gs.dots.length ≤ MAX_DOTS) :
    (gs.apply_game_of_life_rules sq golRng).dots.length ≤ MAX_DOTS := by
  unfold GameState.apply_game_of_life_rules
  exact addCapped_le _ _ (by rw [markDead_length]; exact h)

theorem update_length_le (sq : ℚ → ℚ) (divRng : ℕ → ℕ → ℚ × ℚ × ℚ × ℚ)
    (golRng : ℕ → ℚ × ℚ) (gs : GameState) (dt : ℚ)
    (h : gs.dots.length ≤ MAX_DOTS) :
    (GameState.update sq divRng golRng gs dt).dots.length ≤ MAX_DOTS := by
  have h2 := apply_interactions_length_le sq divRng
    { gs with frame_count := gs.frame_count + 1 } h
  have h3 : (GameState.integrateAll sq dt
      (GameState.apply_interactions sq divRng
        { gs with frame_count := gs.frame_count + 1 })).dots.length ≤ MAX_DOTS := by
    show (List.map _ _).length ≤ MAX_DOTS
    rw [List.length_map]
    exact h2
  unfold GameState.update
  by_cases hp : gs.paused = true
  · rw [if_pos hp]
    exact h
  · rw [if_neg hp]
    unfold golGate
    split
    · exact gol_length_le sq golRng _ h3
    · exact h3

theorem seed_random_length (rngPos : ℕ → ℚ × ℚ × ℚ × ℚ) (rngTy : ℕ → ℕ)
    (gs : GameState) (count : ℕ) :
    (GameState.seed_random rngPos rngTy gs count).dots.length = count := by
  unfold GameState.seed_random
  dsimp only
  rw [List.length_map, List.length_range]

theorem getD_set_self (l : List Dot) (k : ℕ) (x : Dot) (hk : k < l.length) :
    (l.set k x).getD k dummyDot = x := by
  simp [List.getD_eq_getElem?_getD, List.getElem?_set_self, hk]

theorem getD_set_ne (l : List Dot) (m k : ℕ) (x : Dot) (h : m ≠ k) :
    (l.set m x).getD k dummyDot = l.getD k dummyDot := by
  simp [List.getD_eq_getElem?_getD, List.getElem?_set_ne h]

theorem getD_append_left (l l2 : List Dot) (k : ℕ) (h : k < l.length) :
    (l ++ l2).getD k dummyDot = l.getD k dummyDot := by
  simp [List.getD_eq_getElem?_getD, List.getElem?_append_left h]

theorem getD_map (l : List Dot) (f : Dot → Dot) (k : ℕ) (h : k < l.length) :
    (l.map f).getD k dummyDot = f (l.getD k dummyDot) := by
  rw [List.getD_eq_getElem?_getD, List.getD_eq_getElem?_getD, List.getElem?_map,
    List.getElem?_eq_getElem h]
  simp

theorem markDead_foldr (dots : List Dot) (idxs : List ℕ) :
    markDead dots idxs = idxs.foldr
      (fun k ds => ds.set k { ds.getD k dummyDot with alive := false }) dots := by
  unfold markDead
  rw [List.foldl_reverse]

theorem markDead_getD (idxs : List ℕ) (dots : List Dot) (k : ℕ)
    (hk : k < dots.length) :
    (markDead dots idxs).getD k dummyDot =
      if k ∈ idxs then { dots.getD k dummyDot with alive := false }
      else dots.getD k dummyDot := by
  rw [markDead_foldr]
  induction idxs with
  | nil => simp
  | cons a as ih =>
    rw [List.foldr_cons]
    have hlen : (as.foldr
        (fun k ds => ds.set k { ds.getD k dummyDot with alive := false }) dots).length =
        dots.length := by
      rw [← markDead_foldr, markDead_length]
    by_cases hak : a = k
    · subst hak
      rw [getD_set_self _ _ _ (by rw [hlen]; exact hk), ih]
      split <;> simp
    · rw [getD_set_ne _ _ _ _ hak, ih]
      by_cases hmem : k ∈ as
      · rw [if_pos hmem, if_pos (List.mem_cons_of_mem a hmem)]
      · rw [if_neg hmem, if_neg (by
          simp only [List.mem_cons, hmem, or_false]
          exact fun h => hak h.symm)]

theorem addCapped_eq_append (l : List Dot) :
    ∀ dots : List Dot, ∃ tail, addCapped dots l = dots ++ tail := by
  induction l with
  | nil => intro dots; exact ⟨[], by simp [addCapped]⟩
  | cons d ds ih =>
    intro dots
    unfold addCapped
    rw [List.foldl_cons]
    split
    · obtain ⟨t, ht⟩ := ih (dots ++ [d])
      exact ⟨[d] ++ t, by rw [← List.append_assoc]; exact ht⟩
    · exact ih dots

theorem addCapped_getD (dots : List Dot) (l : List Dot) (k : ℕ)
    (hk : k < dots.length) :
    (addCapped dots l).getD k dummyDot = dots.getD k dummyDot := by
  obtain ⟨t, ht⟩ := addCapped_eq_append l dots
  rw [ht, getD_append_left _ _ _ hk]

theorem addCapped_of_fits (l : List Dot) :
    ∀ dots : List Dot, dots.length + l.length ≤ MAX_DOTS →
    addCapped dots l = dots ++ l := by
  induction l with
  | nil => intro dots _; simp [addCapped]
  | cons d ds ih =>
    intro dots h
    unfold addCapped
    rw [List.foldl_cons]
    rw [if_pos (by simp at h; omega)]
    have := ih (dots ++ [d]) (by simp at h ⊢; omega)
    unfold addCapped at this
    rw [this, List.append_assoc]
    rfl

theorem removalList_subset (l : List ℕ) (m : ℕ) (h : m ∈ removalList l) : m ∈ l := by
  unfold removalList at h
  have h2 := (List.destutter_sublist Ne (l.insertionSort (· ≤ ·))).mem h
  exact (List.perm_insertionSort (· ≤ ·) l).mem_iff.mp h2

/-! ### C2 -/

/-- C2 (amended): the population size never exceeds `MAX_DOTS` under
manual placement (`add_dot`) and under a full tick (which performs the
Divider-offspring and life-rule-birth insertions), each insertion point
being capacity-guarded; `seed_random`, however, performs no capacity
check: it replaces the population with exactly `count` particles. -/
theorem capacity_enforced_except_seed_random :
    (∀ (gs : GameState) (x y : ℚ), gs.dots.length ≤ MAX_DOTS →
      (gs.add_dot x y).dots.length ≤ MAX_DOTS) ∧
    (∀ (sq : ℚ → ℚ) (divRng : ℕ → ℕ → ℚ × ℚ × ℚ × ℚ) (golRng : ℕ → ℚ × ℚ)
      (gs : GameState) (dt : ℚ), gs.dots.length ≤ MAX_DOTS →
      (GameState.update sq divRng golRng gs dt).dots.length ≤ MAX_DOTS) ∧
    (∀ (rngPos : ℕ → ℚ × ℚ × ℚ × ℚ) (rngTy : ℕ → ℕ) (gs : GameState) (count : ℕ),
      (GameState.seed_random rngPos rngTy gs count).dots.length = count) := by
  refine ⟨?_, ?_, ?_⟩
  · intro gs x y h
    unfold GameState.add_dot
    split
    · next hlt => simpa using hlt
    · exact h
  · exact update_length_le
  · exact seed_random_length

/-- C2 counterexample: `seed_random` with count 1001 yields a population
of 1001 dots, exceeding `MAX_DOTS` = 1000 — the claim that insertions
beyond the maximum are dropped at the random-seeding insertion point is
false. -/
theorem seed_random_exceeds_MAX_DOTS :
    (GameState.seed_random rngZP rngZT GameState.new 1001).dots.length = 1001 ∧
    MAX_DOTS < 1001 := by
  constructor
  · exact seed_random_length _ _ _ 1001
  · decide

/-! ### C4 -/

/-- C4 counterexample: an Absorber of radius 10 can eat a Classic dot of
radius 1, whose radius is strictly below 90% of the Absorber's own radius
— so `can_eat` does not qualify an Absorber to eat exactly the dots that
are at least 90% of its own radius. -/
theorem can_eat_absorber_small_target :
    Dot.can_eat absorber10 classic1 = true ∧
    classic1.radius < 0.9 * absorber10.radius := by
  have hr : absorber10.radius = 10 := rfl
  have hr2 : classic1.radius = 1 := rfl
  have hce : Dot.can_eat absorber10 classic1 =
      decide (classic1.radius * 0.9 ≤ absorber10.radius) := rfl
  constructor
  · rw [hce, decide_eq_true_iff, hr, hr2]
    norm_num
  · rw [hr, hr2]
    norm_num

/-- C4 (amended): `can_eat` qualifies a Predator to eat exactly the Prey
and Classic dots of equal-or-smaller radius, qualifies an Absorber to eat
exactly the dots whose radius times 0.9 is at most the Absorber's own
radius (the Absorber's radius is at least 90% of the target's), and
qualifies no other type to eat anything. -/
theorem can_eat_characterization (a b : Dot) :
    Dot.can_eat a b = true ↔
      ((a.dot_type = DotType.Predator ∧
        (b.dot_type = DotType.Prey ∨ b.dot_type = DotType.Classic) ∧
        b.radius ≤ a.radius) ∨
       (a.dot_type = DotType.Absorber ∧ b.radius * 0.9 ≤ a.radius)) := by
  cases h : a.dot_type <;> simp [Dot.can_eat, h, and_assoc]

/-! ### C7 -/

/-- C7: a failed `load_config` (missing file or unparsable contents)
returns the error with the whole state — in particular the stored
configuration — unchanged; a successful load replaces exactly the
configuration, with the parsed value. -/
theorem load_config_all_or_nothing (fsRead : String → Option String)
    (parse : String → Option DotConfig) (gs : GameState) (filename : String) :
    ((GameState.load_config fsRead parse gs filename).2 = false →
      (GameState.load_config fsRead parse gs filename).1 = gs) ∧
    ((GameState.load_config fsRead parse gs filename).2 = true →
      ∃ json c, fsRead filename = some json ∧ parse json = some c ∧
        (GameState.load_config fsRead parse gs filename).1 = { gs with config := c }) := by
  unfold GameState.load_config
  cases h1 : fsRead filename with
  | none => simp [h1]
  | some json =>
    cases h2 : parse json with
    | none => simp [h1, h2]
    | some c =>
      constructor
      · intro hfalse
        simp [h1, h2] at hfalse
      · intro _
        exact ⟨json, c, rfl, h2, by simp [h1, h2]⟩

/-! ### C5 -/

/-- C5: on an overlay pass, for a live Classic dot `i` with `n` live
Classic neighbors within `interaction_radius` counted on the pre-overlay
population: with `n` below 2 or above 3 it ends marked dead; with `n` 2 or
3 its entry is unchanged (it survives); with `n` exactly 3 exactly one new
Classic dot — at `i`'s position plus the random offset the oracle drew for
`i` — is in the spawn list, and when the spawn list fits under `MAX_DOTS`
it lands in the final population, whose size grows by exactly the spawn
count. -/
theorem gol_neighbor_rules (sq : ℚ → ℚ) (golRng : ℕ → ℚ × ℚ) (gs : GameState)
    (i : ℕ) (hk : i < gs.dots.length)
    (hai : (gs.dots.getD i dummyDot).alive = true)
    (hcl : (gs.dots.getD i dummyDot).dot_type = DotType.Classic) :
    (golNeighbors sq gs.config gs.dots i < 2 ∨ 3 < golNeighbors sq gs.config gs.dots i →
      ((gs.apply_game_of_life_rules sq golRng).dots.getD i dummyDot).alive = false) ∧
    (golNeighbors sq gs.config gs.dots i = 2 ∨ golNeighbors sq gs.config gs.dots i = 3 →
      (gs.apply_game_of_life_rules sq golRng).dots.getD i dummyDot =
        gs.dots.getD i dummyDot) ∧
    (golNeighbors sq gs.config gs.dots i = 3 →
      golOffspring golRng gs.dots i ∈ golToAdd sq golRng gs.config gs.dots ∧
      (gs.dots.length + (golToAdd sq golRng gs.config gs.dots).length ≤ MAX_DOTS →
        golOffspring golRng gs.dots i ∈ (gs.apply_game_of_life_rules sq golRng).dots ∧
        (gs.apply_game_of_life_rules sq golRng).dots.length =
          gs.dots.length + (golToAdd sq golRng gs.config gs.dots).length)) := by
  have hR : ∀ m : ℕ, m ∈ golToRemove sq gs.config gs.dots ↔
      m ∈ List.range gs.dots.length ∧ (golQualifies gs.dots m ∧
        (golNeighbors sq gs.config gs.dots m < 2 ∨ 3 < golNeighbors sq gs.config gs.dots m)) := by
    intro m
    simp [golToRemove, List.mem_filter]
  have hlenMD : (markDead gs.dots (golToRemove sq gs.config gs.dots)).length =
      gs.dots.length := markDead_length _ _
  have hdots : (gs.apply_game_of_life_rules sq golRng).dots =
      addCapped (markDead gs.dots (golToRemove sq gs.config gs.dots))
        (golToAdd sq golRng gs.config gs.dots) := rfl
  refine ⟨?_, ?_, ?_⟩
  · intro hn
    rw [hdots, addCapped_getD _ _ _ (by rw [hlenMD]; exact hk),
      markDead_getD _ _ _ hk,
      if_pos ((hR i).mpr ⟨List.mem_range.mpr hk, ⟨hai, hcl⟩, hn⟩)]
  · intro hn
    have hni : i ∉ golToRemove sq gs.config gs.dots := by
      intro hmem
      obtain ⟨-, -, hbad⟩ := (hR i).mp hmem
      rcases hn with h2 | h3 <;> rcases hbad with hb | hb <;> omega
    rw [hdots, addCapped_getD _ _ _ (by rw [hlenMD]; exact hk),
      markDead_getD _ _ _ hk, if_neg hni]
  · intro hn3
    have hmem : golOffspring golRng gs.dots i ∈ golToAdd sq golRng gs.config gs.dots := by
      unfold golToAdd
      apply List.mem_map_of_mem
      rw [List.mem_filter]
      refine ⟨List.mem_range.mpr hk, ?_⟩
      rw [decide_eq_true_iff]
      exact ⟨⟨hai, hcl⟩, hn3⟩
    refine ⟨hmem, fun hcap => ?_⟩
    rw [hdots, addCapped_of_fits _ _ (by rw [hlenMD]; exact hcap)]
    exact ⟨List.mem_append_right _ hmem, by rw [List.length_append, hlenMD]⟩

theorem gol_neighbor_rules_witness :
    (golNeighbors sqC5 gsC5.config gsC5.dots 0 < 2 ∨
        3 < golNeighbors sqC5 gsC5.config gsC5.dots 0 →
      ((gsC5.apply_game_of_life_rules sqC5 rngZ2).dots.getD 0 dummyDot).alive = false) ∧
    (golNeighbors sqC5 gsC5.config gsC5.dots 0 = 2 ∨
        golNeighbors sqC5 gsC5.config gsC5.dots 0 = 3 →
      (gsC5.apply_game_of_life_rules sqC5 rngZ2).dots.getD 0 dummyDot =
        gsC5.dots.getD 0 dummyDot) ∧
    (golNeighbors sqC5 gsC5.config gsC5.dots 0 = 3 →
      golOffspring rngZ2 gsC5.dots 0 ∈ golToAdd sqC5 rngZ2 gsC5.config gsC5.dots ∧
      (gsC5.dots.length + (golToAdd sqC5 rngZ2 gsC5.config gsC5.dots).length ≤ MAX_DOTS →
        golOffspring rngZ2 gsC5.dots 0 ∈ (gsC5.apply_game_of_life_rules sqC5 rngZ2).dots ∧
        (gsC5.apply_game_of_life_rules sqC5 rngZ2).dots.length =
          gsC5.dots.length + (golToAdd sqC5 rngZ2 gsC5.config gsC5.dots).length)) :=
  gol_neighbor_rules sqC5 rngZ2 gsC5 0 (by decide) rfl rfl

/-! ### C3 -/

/-- C3: for a pair `(i, j)` of live dots that physically overlap, sit above
the 0.1 separation floor and within `eating_radius` (with the eating radius
within the interaction radius, as in the default configuration): when `i`
qualifies to eat `j`, the pair resolves with `j` pushed onto the removal
list and `i` receiving the eater mutation — regardless of whether `j` also
qualifies (the lower index wins by evaluation order); when only `j`
qualifies, `j` is the eater and `i` is pushed; and in every case the pair
step pushes at most one index, so a single pair never marks both dead. -/
theorem eating_tie_break (sq : ℚ → ℚ) (divRng : ℕ → ℕ → ℚ × ℚ × ℚ × ℚ)
    (config : DotConfig) (fc : ℕ) (st : SweepSt) (i j : ℕ)
    (hai : (st.dots.getD i dummyDot).alive = true)
    (haj : (st.dots.getD j dummyDot).alive = true)
    (hover : Dot.distance_to sq (st.dots.getD i dummyDot) (st.dots.getD j dummyDot) <
      (st.dots.getD i dummyDot).radius + (st.dots.getD j dummyDot).radius)
    (hfloor : (0.1 : ℚ) <
      Dot.distance_to sq (st.dots.getD i dummyDot) (st.dots.getD j dummyDot))
    (heatr : Dot.distance_to sq (st.dots.getD i dummyDot) (st.dots.getD j dummyDot) <
      config.eating_radius)
    (hcfg : config.eating_radius ≤ config.interaction_radius) :
    ((st.dots.getD i dummyDot).can_eat (st.dots.getD j dummyDot) = true →
      (innerStep sq divRng config fc st i j).to_remove = st.to_remove ++ [j] ∧
      (innerStep sq divRng config fc st i j).dots =
        st.dots.set i (eatAbsorb (st.dots.getD i dummyDot) (st.dots.getD j dummyDot))) ∧
    ((st.dots.getD i dummyDot).can_eat (st.dots.getD j dummyDot) = false →
      (st.dots.getD j dummyDot).can_eat (st.dots.getD i dummyDot) = true →
      (innerStep sq divRng config fc st i j).to_remove = st.to_remove ++ [i] ∧
      (innerStep sq divRng config fc st i j).dots =
        st.dots.set j (eatAbsorb (st.dots.getD j dummyDot) (st.dots.getD i dummyDot))) ∧
    (innerStep sq divRng config fc st i j).to_remove.length ≤ st.to_remove.length + 1 := by
  have hdle : ¬ (Dot.distance_to sq (st.dots.getD i dummyDot) (st.dots.getD j dummyDot) >
      config.interaction_radius) := not_lt.mpr (le_trans (le_of_lt heatr) hcfg)
  unfold innerStep
  dsimp only
  rw [if_neg (by rw [haj]; simp), if_neg hdle, if_pos ⟨hover, hfloor⟩]
  refine ⟨?_, ?_, ?_⟩
  · intro hce
    rw [if_pos ⟨hce, heatr⟩]
    exact ⟨rfl, rfl⟩
  · intro hce1 hce2
    rw [if_neg (by rw [hce1]; simp), if_pos ⟨hce2, heatr⟩]
    exact ⟨rfl, rfl⟩
  · by_cases h1 : (st.dots.getD i dummyDot).can_eat (st.dots.getD j dummyDot) = true ∧
        Dot.distance_to sq (st.dots.getD i dummyDot) (st.dots.getD j dummyDot) <
          config.eating_radius
    · rw [if_pos h1]
      simp
    · rw [if_neg h1]
      by_cases h2 : (st.dots.getD j dummyDot).can_eat (st.dots.getD i dummyDot) = true ∧
          Dot.distance_to sq (st.dots.getD i dummyDot) (st.dots.getD j dummyDot) <
            config.eating_radius
      · rw [if_pos h2]
        simp
      · rw [if_neg h2, applyTypeForces_to_remove]
        split <;> simp

theorem eating_tie_break_witness :
    (innerStep sqC3 rngZ4 DotConfig.default 1 stC3 0 1).to_remove =
      stC3.to_remove ++ [1] ∧
    (innerStep sqC3 rngZ4 DotConfig.default 1 stC3 0 1).dots =
      stC3.dots.set 0 (eatAbsorb (stC3.dots.getD 0 dummyDot)
        (stC3.dots.getD 1 dummyDot)) :=
  (eating_tie_break sqC3 rngZ4 DotConfig.default 1 stC3 0 1 rfl rfl
    (by norm_num [Dot.distance_to, Vec2.lengthSq, Vec2.sub, sqC3, stC3, Dot.new,
      dummyDot, DOT_RADIUS])
    (by norm_num [Dot.distance_to, Vec2.lengthSq, Vec2.sub, sqC3, stC3, Dot.new,
      dummyDot])
    (by norm_num [Dot.distance_to, Vec2.lengthSq, Vec2.sub, sqC3, stC3, Dot.new,
      dummyDot, DotConfig.default])
    (by norm_num [DotConfig.default, INTERACTION_RADIUS])).1
    (by norm_num [Dot.can_eat, stC3, Dot.new, dummyDot])

/-! ### C1 -/

set_option maxHeartbeats 2000000 in
/-- C1: in the spec's scenario, after one tick the Classic dot's x
position is exactly 110.049 — it has INCREASED (the Attractor arm adds
the force along the direction pointing away from itself, so the code
repels, contradicting both the claim and the enum's own comment "Pulls
dots toward it") — and the Attractor receives no force at all: its
position stays (100,100), so it is not pulled toward the Classic dot
either. -/
theorem attractor_repels_in_code :
    ((GameState.update sqC1 rngZ4 rngZ2 gsC1 1).dots.getD 1 dummyDot).position.x =
      110049/1000 ∧
    (110 : ℚ) <
      ((GameState.update sqC1 rngZ4 rngZ2 gsC1 1).dots.getD 1 dummyDot).position.x ∧
    ((GameState.update sqC1 rngZ4 rngZ2 gsC1 1).dots.getD 0 dummyDot).position =
      ⟨100, 100⟩ := by
  norm_num [GameState.update, golGate, GameState.integrateAll, GameState.apply_interactions,
    interactionSweep, sweepRow, innerStep, applyTypeForces, roleForces, roleAdds, symForces,
    protectorScan, divOffspring, eatAbsorb, addF, subF, applyForces, markDead, removalList,
    addCapped, Dot.update, wallBounce, wallLeft, wallRight, wallTop, wallBottom,
    Dot.distance_to, Dot.can_eat, Dot.apply_force, Dot.new,
    dummyDot, Vec2.normalize, Vec2.lengthSq, Vec2.add, Vec2.sub, Vec2.scale, Vec2.dot, Vec2.zero,
    DotConfig.default, DOT_RADIUS, INTERACTION_RADIUS, SCREEN_WIDTH, SCREEN_HEIGHT, MAX_DOTS,
    sqC1, gsC1, GameState.new, rngZ4, rngZ2,
    show List.range 2 = [0, 1] from rfl,
    show List.range' 1 1 = [1] from rfl,
    show List.range' 2 0 = [] from rfl,
    List.foldl, List.insertionSort, List.orderedInsert, List.destutter, List.destutter',
    List.zipWith, List.filter]

/-! ### C10 -/

set_option maxHeartbeats 1600000 in
theorem innerC10_1 : innerStep sqC10 rngZ4 DotConfig.default 1 st0C10 0 1 = stAC10 := by
  norm_num [innerStep, applyTypeForces, roleForces, roleAdds, symForces,
    protectorScan, divOffspring, eatAbsorb, addF, subF,
    Dot.distance_to, Dot.can_eat, Dot.new, dummyDot,
    Vec2.normalize, Vec2.lengthSq, Vec2.add, Vec2.sub, Vec2.scale, Vec2.dot, Vec2.zero,
    DotConfig.default, DOT_RADIUS, INTERACTION_RADIUS,
    sqC10, st0C10, stAC10, stBC10, stC10val, dotsC10,
    show List.range 3 = [0, 1, 2] from rfl, List.foldl]
  try simp only [reduceCtorEq, or_self, false_and, and_false, if_false]
  try norm_num

set_option maxHeartbeats 1600000 in
theorem innerC10_2 : innerStep sqC10 rngZ4 DotConfig.default 1 stAC10 0 2 = stBC10 := by
  norm_num [innerStep, applyTypeForces, roleForces, roleAdds, symForces,
    protectorScan, divOffspring, eatAbsorb, addF, subF,
    Dot.distance_to, Dot.can_eat, Dot.new, dummyDot,
    Vec2.normalize, Vec2.lengthSq, Vec2.add, Vec2.sub, Vec2.scale, Vec2.dot, Vec2.zero,
    DotConfig.default, DOT_RADIUS, INTERACTION_RADIUS,
    sqC10, st0C10, stAC10, stBC10, stC10val, dotsC10,
    show List.range 3 = [0, 1, 2] from rfl, List.foldl]
  try simp only [reduceCtorEq, or_self, false_and, and_false, if_false]
  try norm_num

set_option maxHeartbeats 1600000 in
theorem innerC10_3 : innerStep sqC10 rngZ4 DotConfig.default 1 stBC10 1 2 = stC10val := by
  norm_num [innerStep, applyTypeForces, roleForces, roleAdds, symForces,
    protectorScan, divOffspring, eatAbsorb, addF, subF,
    Dot.distance_to, Dot.can_eat, Dot.new, dummyDot,
    Vec2.normalize, Vec2.lengthSq, Vec2.add, Vec2.sub, Vec2.scale, Vec2.dot, Vec2.zero,
    DotConfig.default, DOT_RADIUS, INTERACTION_RADIUS,
    sqC10, st0C10, stAC10, stBC10, stC10val, dotsC10,
    show List.range 3 = [0, 1, 2] from rfl, List.foldl]
  try simp only [reduceCtorEq, or_self, false_and, and_false, if_false]
  try norm_num

theorem rowC10_0 : sweepRow sqC10 rngZ4 DotConfig.default 1 st0C10 0 = stBC10 := by
  unfold sweepRow
  rw [show st0C10.dots.length = 3 from rfl,
    show List.range' (0 + 1) (3 - (0 + 1)) = [1, 2] from rfl,
    List.foldl_cons, List.foldl_cons, List.foldl_nil]
  rw [innerC10_1, innerC10_2]

theorem rowC10_1 : sweepRow sqC10 rngZ4 DotConfig.default 1 stBC10 1 = stC10val := by
  unfold sweepRow
  rw [show stBC10.dots.length = 3 from rfl,
    show List.range' (1 + 1) (3 - (1 + 1)) = [2] from rfl,
    List.foldl_cons, List.foldl_nil]
  rw [innerC10_3]

theorem rowC10_2 : sweepRow sqC10 rngZ4 DotConfig.default 1 stC10val 2 = stC10val := by
  unfold sweepRow
  rw [show stC10val.dots.length = 3 from rfl,
    show List.range' (2 + 1) (3 - (2 + 1)) = [] from rfl,
    List.foldl_nil]

theorem sweepC10_eval :
    interactionSweep sqC10 rngZ4 gsC10.config gsC10.frame_count gsC10.dots = stC10val := by
  rw [show gsC10.config = DotConfig.default from rfl,
    show gsC10.frame_count = 1 from rfl, show gsC10.dots = dotsC10 from rfl]
  unfold interactionSweep
  rw [show dotsC10.length = 3 from rfl, show List.range 3 = [0, 1, 2] from rfl,
    show List.replicate 3 Vec2.zero = [Vec2.zero, Vec2.zero, Vec2.zero] from rfl,
    List.foldl_cons, List.foldl_cons, List.foldl_cons, List.foldl_nil,
    show (⟨dotsC10, [Vec2.zero, Vec2.zero, Vec2.zero], [], []⟩ : SweepSt) = st0C10 from rfl]
  rw [if_neg (show ¬ ((st0C10.dots.getD 0 dummyDot).alive = false) by
      rw [show (st0C10.dots.getD 0 dummyDot).alive = true from rfl]; simp),
    rowC10_0,
    if_neg (show ¬ ((stBC10.dots.getD 1 dummyDot).alive = false) by
      rw [show (stBC10.dots.getD 1 dummyDot).alive = true from rfl]; simp),
    rowC10_1,
    if_neg (show ¬ ((stC10val.dots.getD 2 dummyDot).alive = false) by
      rw [show (stC10val.dots.getD 2 dummyDot).alive = true from rfl]; simp),
    rowC10_2]

set_option maxHeartbeats 2000000 in
/-- C10: in the flanking scenario the sweep's removal list is [2, 2] —
the victim was eaten by BOTH pairs (0,2) and (1,2), because it keeps
alive = true until the sweep ends — and each eater's energy rose from 100
to 150, half of the victim's (un-reduced) 100 each; sorting and
deduplication collapse the list to [2], the victim is marked dead once,
and the population still holds 3 entries. -/
theorem double_eating_same_victim :
    (interactionSweep sqC10 rngZ4 gsC10.config gsC10.frame_count gsC10.dots).to_remove =
      [2, 2] ∧
    removalList [2, 2] = [2] ∧
    ((interactionSweep sqC10 rngZ4 gsC10.config gsC10.frame_count gsC10.dots).dots.getD 2
      dummyDot).alive = true ∧
    ((GameState.apply_interactions sqC10 rngZ4 gsC10).dots.getD 0 dummyDot).energy = 150 ∧
    ((GameState.apply_interactions sqC10 rngZ4 gsC10).dots.getD 1 dummyDot).energy = 150 ∧
    ((GameState.apply_interactions sqC10 rngZ4 gsC10).dots.getD 2 dummyDot).alive = false ∧
    (GameState.apply_interactions sqC10 rngZ4 gsC10).dots.length = 3 := by
  have happ : GameState.apply_interactions sqC10 rngZ4 gsC10 =
      { gsC10 with dots :=
        (if gsC10.frame_count % 60 = 0 then
          (addCapped (markDead (applyForces stC10val.dots stC10val.forces)
            (removalList stC10val.to_remove)) stC10val.to_add).filter (fun d => d.alive)
        else
          addCapped (markDead (applyForces stC10val.dots stC10val.forces)
            (removalList stC10val.to_remove)) stC10val.to_add) } := by
    unfold GameState.apply_interactions
    rw [sweepC10_eval]
  rw [happ, sweepC10_eval]
  norm_num [stC10val, gsC10, GameState.new, dotsC10, applyForces, markDead, removalList,
    addCapped, Dot.apply_force, Vec2.add, Vec2.scale, Vec2.zero, dummyDot, Dot.new,
    DOT_RADIUS, MAX_DOTS, List.insertionSort, List.orderedInsert, List.destutter,
    List.destutter', List.zipWith, List.foldl, List.filter]

/-! ### C9 -/

set_option maxHeartbeats 1600000 in
theorem innerC9_1 : innerStep sqC9 rngZ4 DotConfig.default 120 st0C9 0 1 = stAC9 := by
  norm_num [innerStep, applyTypeForces, roleForces, roleAdds, symForces,
    protectorScan, divOffspring, eatAbsorb, addF, subF,
    Dot.distance_to, Dot.can_eat, Dot.new, dummyDot,
    Vec2.normalize, Vec2.lengthSq, Vec2.add, Vec2.sub, Vec2.scale, Vec2.dot, Vec2.zero,
    DotConfig.default, DOT_RADIUS, INTERACTION_RADIUS, rngZ4,
    sqC9, st0C9, stAC9, stC9val, dotsC9,
    show List.range 3 = [0, 1, 2] from rfl, List.foldl]
  try simp only [reduceCtorEq, or_self, false_and, and_false, if_false]
  try norm_num

set_option maxHeartbeats 1600000 in
theorem innerC9_2 : innerStep sqC9 rngZ4 DotConfig.default 120 stAC9 0 2 = stC9val := by
  norm_num [innerStep, applyTypeForces, roleForces, roleAdds, symForces,
    protectorScan, divOffspring, eatAbsorb, addF, subF,
    Dot.distance_to, Dot.can_eat, Dot.new, dummyDot,
    Vec2.normalize, Vec2.lengthSq, Vec2.add, Vec2.sub, Vec2.scale, Vec2.dot, Vec2.zero,
    DotConfig.default, DOT_RADIUS, INTERACTION_RADIUS, rngZ4,
    sqC9, st0C9, stAC9, stC9val, dotsC9,
    show List.range 3 = [0, 1, 2] from rfl, List.foldl]
  try simp only [reduceCtorEq, or_self, false_and, and_false, if_false]
  try norm_num

set_option maxHeartbeats 1600000 in
theorem innerC9_3 : innerStep sqC9 rngZ4 DotConfig.default 120 stC9val 1 2 = stC9val := by
  norm_num [innerStep, applyTypeForces, roleForces, roleAdds, symForces,
    protectorScan, divOffspring, eatAbsorb, addF, subF,
    Dot.distance_to, Dot.can_eat, Dot.new, dummyDot,
    Vec2.normalize, Vec2.lengthSq, Vec2.add, Vec2.sub, Vec2.scale, Vec2.dot, Vec2.zero,
    DotConfig.default, DOT_RADIUS, INTERACTION_RADIUS, rngZ4,
    sqC9, st0C9, stAC9, stC9val, dotsC9,
    show List.range 3 = [0, 1, 2] from rfl, List.foldl]
  try simp only [reduceCtorEq, or_self, false_and, and_false, if_false]
  try norm_num

theorem rowC9_0 : sweepRow sqC9 rngZ4 DotConfig.default 120 st0C9 0 = stC9val := by
  unfold sweepRow
  rw [show st0C9.dots.length = 3 from rfl,
    show List.range' (0 + 1) (3 - (0 + 1)) = [1, 2] from rfl,
    List.foldl_cons, List.foldl_cons, List.foldl_nil]
  rw [innerC9_1, innerC9_2]

theorem rowC9_1 : sweepRow sqC9 rngZ4 DotConfig.default 120 stC9val 1 = stC9val := by
  unfold sweepRow
  rw [show stC9val.dots.length = 3 from rfl,
    show List.range' (1 + 1) (3 - (1 + 1)) = [2] from rfl,
    List.foldl_cons, List.foldl_nil]
  rw [innerC9_3]

theorem rowC9_2 : sweepRow sqC9 rngZ4 DotConfig.default 120 stC9val 2 = stC9val := by
  unfold sweepRow
  rw [show stC9val.dots.length = 3 from rfl,
    show List.range' (2 + 1) (3 - (2 + 1)) = [] from rfl,
    List.foldl_nil]

theorem sweepC9_eval :
    interactionSweep sqC9 rngZ4 gsC9.config gsC9.frame_count gsC9.dots = stC9val := by
  rw [show gsC9.config = DotConfig.default from rfl,
    show gsC9.frame_count = 120 from rfl, show gsC9.dots = dotsC9 from rfl]
  unfold interactionSweep
  rw [show dotsC9.length = 3 from rfl, show List.range 3 = [0, 1, 2] from rfl,
    show List.replicate 3 Vec2.zero = [Vec2.zero, Vec2.zero, Vec2.zero] from rfl,
    List.foldl_cons, List.foldl_cons, List.foldl_cons, List.foldl_nil,
    show (⟨dotsC9, [Vec2.zero, Vec2.zero, Vec2.zero], [], []⟩ : SweepSt) = st0C9 from rfl]
  rw [if_neg (show ¬ ((st0C9.dots.getD 0 dummyDot).alive = false) by
      rw [show (st0C9.dots.getD 0 dummyDot).alive = true from rfl]; simp),
    rowC9_0,
    if_neg (show ¬ ((stC9val.dots.getD 1 dummyDot).alive = false) by
      rw [show (stC9val.dots.getD 1 dummyDot).alive = true from rfl]; simp),
    rowC9_1,
    if_neg (show ¬ ((stC9val.dots.getD 2 dummyDot).alive = false) by
      rw [show (stC9val.dots.getD 2 dummyDot).alive = true from rfl]; simp),
    rowC9_2]

set_option maxHeartbeats 4000000 in
/-- C9: the Divider arm of `apply_type_forces` appends exactly one
offspring per call in which the acting dot is a Divider with radius above
`divide_size` on a 120th frame — independent of the pair's distance and
direction — and nothing otherwise; hence in the concrete scenario the
Divider, evaluated in two in-range pairs, spawns two offspring in the one
tick: the sweep's spawn list has length 2 and the population grows from 3
to 5. -/
theorem divider_spawns_once_per_pair :
    (∀ (sq : ℚ → ℚ) (divRng : ℕ → ℕ → ℚ × ℚ × ℚ × ℚ) (config : DotConfig)
      (fc : ℕ) (st : SweepSt) (i j : ℕ) (d : ℚ) (dir : Vec2),
      (applyTypeForces sq divRng config fc st i j d dir).to_add =
        st.to_add ++
          (if (st.dots.getD i dummyDot).dot_type = DotType.Divider ∧
              config.divide_size < (st.dots.getD i dummyDot).radius ∧
              fc % 120 = 0 then
            [divOffspring divRng (st.dots.getD i dummyDot) i j]
          else [])) ∧
    (interactionSweep sqC9 rngZ4 gsC9.config gsC9.frame_count gsC9.dots).to_add.length = 2 ∧
    (GameState.apply_interactions sqC9 rngZ4 gsC9).dots.length = 5 := by
  refine ⟨?_, ?_, ?_⟩
  · intro sq divRng config fc st i j d dir
    show st.to_add ++ roleAdds divRng config fc st.dots i j = _
    congr 1
    unfold roleAdds
    dsimp only
    cases h : (st.dots.getD i dummyDot).dot_type <;> simp [h]
  · rw [sweepC9_eval]
    rfl
  · have happ : GameState.apply_interactions sqC9 rngZ4 gsC9 =
        { gsC9 with dots :=
          (if gsC9.frame_count % 60 = 0 then
            (addCapped (markDead (applyForces stC9val.dots stC9val.forces)
              (removalList stC9val.to_remove)) stC9val.to_add).filter (fun d => d.alive)
          else
            addCapped (markDead (applyForces stC9val.dots stC9val.forces)
              (removalList stC9val.to_remove)) stC9val.to_add) } := by
      unfold GameState.apply_interactions
      rw [sweepC9_eval]
    rw [happ]
    norm_num [stC9val, gsC9, GameState.new, dotsC9, applyForces, markDead, removalList,
      addCapped, Dot.apply_force, Vec2.add, Vec2.scale, Vec2.zero, dummyDot, Dot.new,
      DOT_RADIUS, MAX_DOTS, List.insertionSort, List.orderedInsert, List.destutter,
      List.destutter', List.zipWith, List.foldl, List.filter]

/-! ### C6 -/

theorem lengthSq_scale (v : Vec2) (c : ℚ) :
    (v.scale c).lengthSq = v.lengthSq * (c * c) := by
  simp only [Vec2.scale, Vec2.lengthSq]
  ring

theorem lengthSq_flipX (vx vy bd : ℚ) (hbd : bd * bd ≤ 1) :
    Vec2.lengthSq ⟨vx * -bd, vy⟩ ≤ Vec2.lengthSq ⟨vx, vy⟩ := by
  simp only [Vec2.lengthSq]
  nlinarith [mul_self_nonneg vx, mul_nonneg (sub_nonneg.mpr hbd) (mul_self_nonneg vx)]

theorem lengthSq_flipY (vx vy bd : ℚ) (hbd : bd * bd ≤ 1) :
    Vec2.lengthSq ⟨vx, vy * -bd⟩ ≤ Vec2.lengthSq ⟨vx, vy⟩ := by
  simp only [Vec2.lengthSq]
  nlinarith [mul_self_nonneg vy, mul_nonneg (sub_nonneg.mpr hbd) (mul_self_nonneg vy)]

theorem wallLeft_vel_le (config : DotConfig) (radius : ℚ) (k : Kin)
    (hbd : config.bounce_damping * config.bounce_damping ≤ 1) :
    (wallLeft config radius k).vel.lengthSq ≤ k.vel.lengthSq := by
  unfold wallLeft
  split
  · exact lengthSq_flipX k.vel.x k.vel.y config.bounce_damping hbd
  · exact le_refl _

theorem wallRight_vel_le (config : DotConfig) (radius : ℚ) (k : Kin)
    (hbd : config.bounce_damping * config.bounce_damping ≤ 1) :
    (wallRight config radius k).vel.lengthSq ≤ k.vel.lengthSq := by
  unfold wallRight
  split
  · exact lengthSq_flipX k.vel.x k.vel.y config.bounce_damping hbd
  · exact le_refl _

theorem wallTop_vel_le (config : DotConfig) (radius : ℚ) (k : Kin)
    (hbd : config.bounce_damping * config.bounce_damping ≤ 1) :
    (wallTop config radius k).vel.lengthSq ≤ k.vel.lengthSq := by
  unfold wallTop
  split
  · exact lengthSq_flipY k.vel.x k.vel.y config.bounce_damping hbd
  · exact le_refl _

theorem wallBottom_vel_le (config : DotConfig) (radius : ℚ) (k : Kin)
    (hbd : config.bounce_damping * config.bounce_damping ≤ 1) :
    (wallBottom config radius k).vel.lengthSq ≤ k.vel.lengthSq := by
  unfold wallBottom
  split
  · exact lengthSq_flipY k.vel.x k.vel.y config.bounce_damping hbd
  · exact le_refl _

theorem wallBounce_vel_le (config : DotConfig) (radius : ℚ) (k : Kin)
    (hbd : config.bounce_damping * config.bounce_damping ≤ 1) :
    (wallBounce config radius k).vel.lengthSq ≤ k.vel.lengthSq := by
  unfold wallBounce
  exact le_trans (wallBottom_vel_le config radius _ hbd)
    (le_trans (wallTop_vel_le config radius _ hbd)
      (le_trans (wallRight_vel_le config radius _ hbd)
        (wallLeft_vel_le config radius k hbd)))

/-- C6: for every live dot and every configuration with a nonnegative
speed limit and a damping factor of magnitude at most 1, the squared
velocity after `Dot::update` is at most `max_speed` squared — including
when wall reflections occurred during the same update — assuming the
square-root oracle returns the exact nonnegative root of the squared
post-friction speed, the one point where the update evaluates it. -/
theorem speed_clamped_after_update (sq : ℚ → ℚ) (config : DotConfig) (dt : ℚ) (d : Dot)
    (ha : d.alive = true)
    (hms : 0 ≤ config.max_speed)
    (hbd : config.bounce_damping * config.bounce_damping ≤ 1)
    (hsq : sq ((d.velocity.add (d.acceleration.scale dt)).scale config.friction).lengthSq *
      sq ((d.velocity.add (d.acceleration.scale dt)).scale config.friction).lengthSq =
      ((d.velocity.add (d.acceleration.scale dt)).scale config.friction).lengthSq)
    (hsq0 : 0 ≤ sq ((d.velocity.add (d.acceleration.scale dt)).scale config.friction).lengthSq) :
    (Dot.update sq config dt d).velocity.lengthSq ≤
      config.max_speed * config.max_speed := by
  unfold Dot.update
  rw [if_pos ha]
  dsimp only
  refine le_trans (wallBounce_vel_le config d.radius _ hbd) ?_
  dsimp only
  by_cases hc :
    sq ((d.velocity.add (d.acceleration.scale dt)).scale config.friction).lengthSq >
      config.max_speed
  · rw [if_pos hc]
    unfold Vec2.normalize
    rw [lengthSq_scale, lengthSq_scale]
    have hspos :
        0 < sq ((d.velocity.add (d.acceleration.scale dt)).scale config.friction).lengthSq :=
      lt_of_le_of_lt hms hc
    have hne :
        sq ((d.velocity.add (d.acceleration.scale dt)).scale config.friction).lengthSq ≠ 0 :=
      ne_of_gt hspos
    generalize hL :
      ((d.velocity.add (d.acceleration.scale dt)).scale config.friction).lengthSq = L
      at hsq hsq0 hc hspos hne ⊢
    generalize hs : sq L = s at hsq hsq0 hc hspos hne ⊢
    rw [← hsq]
    refine le_of_eq ?_
    field_simp
  · rw [if_neg hc]
    push_neg at hc
    rw [← hsq]
    exact mul_le_mul hc hc hsq0 hms

theorem speed_clamped_after_update_witness :
    (Dot.update sqC6 DotConfig.default 1 dC6).velocity.lengthSq ≤
      DotConfig.default.max_speed * DotConfig.default.max_speed :=
  speed_clamped_after_update sqC6 DotConfig.default 1 dC6 rfl
    (by norm_num [DotConfig.default])
    (by norm_num [DotConfig.default])
    (by norm_num [dC6, Dot.new, Vec2.add, Vec2.scale, Vec2.lengthSq, Vec2.zero,
      DotConfig.default, sqC6])
    (by norm_num [dC6, Dot.new, Vec2.add, Vec2.scale, Vec2.lengthSq, Vec2.zero,
      DotConfig.default, sqC6])

/-! ### C8 -/

theorem apply_force_energy (d : Dot) (f : Vec2) : (d.apply_force f).energy = d.energy := rfl

theorem apply_force_alive (d : Dot) (f : Vec2) : (d.apply_force f).alive = d.alive := rfl

theorem update_energy (sq : ℚ → ℚ) (config : DotConfig) (dt : ℚ) (d : Dot)
    (ha : d.alive = true) :
    (Dot.update sq config dt d).energy = d.energy - 0.1 * dt := by
  unfold Dot.update
  rw [if_pos ha]

theorem markDead_getD_energy (idxs : List ℕ) (dots : List Dot) (k : ℕ)
    (hk : k < dots.length) :
    ((markDead dots idxs).getD k dummyDot).energy = (dots.getD k dummyDot).energy := by
  rw [markDead_getD idxs dots k hk]
  split <;> rfl

theorem addCapped_length_ge (dots : List Dot) (l : List Dot) :
    dots.length ≤ (addCapped dots l).length := by
  obtain ⟨t, ht⟩ := addCapped_eq_append l dots
  rw [ht]
  simp

theorem applyForces_getD (dots : List Dot) (forces : List Vec2) (k : ℕ)
    (hk : k < dots.length) (hlen : forces.length = dots.length) :
    (applyForces dots forces).getD k dummyDot =
      if (dots.getD k dummyDot).alive = true then
        (dots.getD k dummyDot).apply_force (forces.getD k Vec2.zero)
      else dots.getD k dummyDot := by
  induction dots generalizing forces k with
  | nil => simp at hk
  | cons d ds ih =>
    cases forces with
    | nil => simp at hlen
    | cons f fs =>
      cases k with
      | zero => simp [applyForces]
      | succ n =>
        have hn : n < ds.length := by simpa using hk
        have hl : fs.length = ds.length := by simpa using hlen
        simpa [applyForces] using ih fs n hn hl

theorem golRules_getD_energy (sq : ℚ → ℚ) (golRng : ℕ → ℚ × ℚ) (gs : GameState) (k : ℕ)
    (hk : k < gs.dots.length) :
    ((gs.apply_game_of_life_rules sq golRng).dots.getD k dummyDot).energy =
      (gs.dots.getD k dummyDot).energy := by
  unfold GameState.apply_game_of_life_rules
  dsimp only
  rw [addCapped_getD _ _ _ (by rw [markDead_length]; exact hk)]
  exact markDead_getD_energy _ _ _ hk

/-- C8: for a live dot at index `k` that the sweep leaves untouched (it
ate nobody, so its entry is unchanged) and that no pair marked for
removal (it was eaten by nobody), a full unpaused tick — on a frame that
does not compact — changes its energy by exactly −0.1·dt; hence, for a
nonnegative time step, its energy does not increase. -/
theorem energy_decay_without_eating (sq : ℚ → ℚ) (divRng : ℕ → ℕ → ℚ × ℚ × ℚ × ℚ)
    (golRng : ℕ → ℚ × ℚ) (gs : GameState) (dt : ℚ) (k : ℕ)
    (hp : gs.paused = false)
    (hk : k < gs.dots.length)
    (ha : (gs.dots.getD k dummyDot).alive = true)
    (hsw1 : (interactionSweep sq divRng gs.config (gs.frame_count + 1) gs.dots).dots.getD k
      dummyDot = gs.dots.getD k dummyDot)
    (hsw2 : k ∉ (interactionSweep sq divRng gs.config (gs.frame_count + 1) gs.dots).to_remove)
    (hfc : (gs.frame_count + 1) % 60 ≠ 0) :
    ((GameState.update sq divRng golRng gs dt).dots.getD k dummyDot).energy =
      (gs.dots.getD k dummyDot).energy - 0.1 * dt ∧
    (0 ≤ dt → ((GameState.update sq divRng golRng gs dt).dots.getD k dummyDot).energy ≤
      (gs.dots.getD k dummyDot).energy) := by
  obtain ⟨hlen1, hlen2⟩ :=
    interactionSweep_lengths sq divRng gs.config (gs.frame_count + 1) gs.dots
  have hAF : (applyForces
      (interactionSweep sq divRng gs.config (gs.frame_count + 1) gs.dots).dots
      (interactionSweep sq divRng gs.config (gs.frame_count + 1) gs.dots).forces).length =
      gs.dots.length := by
    rw [applyForces_length _ _ (by rw [hlen1, hlen2]), hlen1]
  have hAgetD : (GameState.apply_interactions sq divRng
        { gs with frame_count := gs.frame_count + 1 }).dots.getD k dummyDot =
      (gs.dots.getD k dummyDot).apply_force
        ((interactionSweep sq divRng gs.config (gs.frame_count + 1) gs.dots).forces.getD k
          Vec2.zero) := by
    unfold GameState.apply_interactions
    dsimp only
    rw [if_neg hfc]
    rw [addCapped_getD _ _ _ (by rw [markDead_length, hAF]; exact hk)]
    rw [markDead_getD _ _ _ (by rw [hAF]; exact hk)]
    rw [if_neg (fun hm => hsw2 (removalList_subset _ _ hm))]
    rw [applyForces_getD _ _ _ (by rw [hlen1]; exact hk) (by rw [hlen1, hlen2])]
    rw [hsw1, if_pos ha]
  have hAlen : k < (GameState.apply_interactions sq divRng
      { gs with frame_count := gs.frame_count + 1 }).dots.length := by
    unfold GameState.apply_interactions
    dsimp only
    rw [if_neg hfc]
    exact lt_of_lt_of_le (by rw [markDead_length, hAF]; exact hk)
      (addCapped_length_ge _ _)
  have hIgetD : (GameState.integrateAll sq dt (GameState.apply_interactions sq divRng
        { gs with frame_count := gs.frame_count + 1 })).dots.getD k dummyDot =
      Dot.update sq
        (GameState.apply_interactions sq divRng
          { gs with frame_count := gs.frame_count + 1 }).config dt
        ((GameState.apply_interactions sq divRng
          { gs with frame_count := gs.frame_count + 1 }).dots.getD k dummyDot) := by
    unfold GameState.integrateAll
    dsimp only
    exact getD_map _ _ _ hAlen
  have hE : ((GameState.integrateAll sq dt (GameState.apply_interactions sq divRng
        { gs with frame_count := gs.frame_count + 1 })).dots.getD k dummyDot).energy =
      (gs.dots.getD k dummyDot).energy - 0.1 * dt := by
    rw [hIgetD, hAgetD, update_energy _ _ _ _ (by rw [apply_force_alive]; exact ha),
      apply_force_energy]
  have hIlen : k < (GameState.integrateAll sq dt (GameState.apply_interactions sq divRng
      { gs with frame_count := gs.frame_count + 1 })).dots.length := by
    unfold GameState.integrateAll
    dsimp only
    rw [List.length_map]
    exact hAlen
  have hfinal : ((GameState.update sq divRng golRng gs dt).dots.getD k dummyDot).energy =
      (gs.dots.getD k dummyDot).energy - 0.1 * dt := by
    unfold GameState.update
    rw [if_neg (by rw [hp]; simp)]
    unfold golGate
    split
    · rw [golRules_getD_energy _ _ _ _ hIlen]
      exact hE
    · exact hE
  refine ⟨hfinal, fun hdt => ?_⟩
  rw [hfinal]
  have : (0 : ℚ) ≤ 0.1 * dt := by
    have : (0 : ℚ) ≤ 0.1 := by norm_num
    exact mul_nonneg this hdt
  linarith

theorem energy_decay_without_eating_witness :
    ((GameState.update sqC8 rngZ4 rngZ2 gsC8 1).dots.getD 0 dummyDot).energy =
      (gsC8.dots.getD 0 dummyDot).energy - 0.1 * 1 ∧
    (0 ≤ (1 : ℚ) → ((GameState.update sqC8 rngZ4 rngZ2 gsC8 1).dots.getD 0 dummyDot).energy ≤
      (gsC8.dots.getD 0 dummyDot).energy) :=
  energy_decay_without_eating sqC8 rngZ4 rngZ2 gsC8 1 0 rfl (by decide) rfl
    (by rw [show interactionSweep sqC8 rngZ4 gsC8.config (gsC8.frame_count + 1) gsC8.dots =
        ⟨gsC8.dots, [Vec2.zero], [], []⟩ from rfl])
    (by rw [show interactionSweep sqC8 rngZ4 gsC8.config (gsC8.frame_count + 1) gsC8.dots =
        ⟨gsC8.dots, [Vec2.zero], [], []⟩ from rfl]; simp)
    (by decide)

end DotGame
